import Mathlib

/-!
Shallow embedding of `scripts/check-deployment.py` (OpenClaw deployment
status checker).

External effects (HTTP requests via `requests.get`, subprocess invocations
of the AWS CLI, JSON decoding by the `requests`/`json` libraries, and the
wall clock) are supplied as inputs: each check function takes the outcomes
of the library calls it performs and returns the value the Python function
would return, together with a trace of the HTTP requests it issued and the
diagnostic lines it printed.  Python numbers are modelled as exact
rationals; a raised Python exception is modelled as `Except.error` carrying
the exception text `str(e)`.
-/

/-- Python values as produced by JSON decoding (`response.json()`,
`json.loads`): None, booleans, numbers, strings, lists and dicts. -/
inductive Json where
  | null : Json
  | bool : Bool → Json
  | num : ℚ → Json
  | str : String → Json
  | arr : List Json → Json
  | obj : List (String × Json) → Json

/-- Python truthiness (`if x:`) for the values above: None and empty
containers, the empty string, 0 and False are falsy. -/
def Json.truthy : Json → Bool
  | .null => false
  | .bool b => b
  | .num q => decide (q ≠ 0)
  | .str s => !s.isEmpty
  | .arr xs => !xs.isEmpty
  | .obj fs => !fs.isEmpty

/-- Python `d.get(key, default)`: raises (AttributeError) unless the value
is a dict; otherwise returns the stored value or the default. -/
def Json.dictGet : Json → String → Json → Except String Json
  | .obj fs, k, d => .ok ((fs.lookup k).getD d)
  | .null, _, _ => .error "AttributeError: NoneType object has no attribute get"
  | _, _, _ => .error "AttributeError: object has no attribute get"

/-- Python subscript by string key (`d[key]`): KeyError when absent,
TypeError on a non-dict. -/
def Json.item : Json → String → Except String Json
  | .obj fs, k =>
      match fs.lookup k with
      | some v => .ok v
      | none => .error ("KeyError: " ++ k)
  | _, k => .error ("TypeError: value is not subscriptable by " ++ k)

/-- Python subscript `xs[0]`: first element of a list (IndexError when
empty), first character of a string, TypeError otherwise. -/
def Json.index0 : Json → Except String Json
  | .arr (x :: _) => .ok x
  | .arr [] => .error "IndexError: list index out of range"
  | .str s =>
      match s.data with
      | c :: _ => .ok (.str (String.mk [c]))
      | [] => .error "IndexError: string index out of range"
  | .obj _ => .error "KeyError: 0"
  | _ => .error "TypeError: object is not subscriptable"

/-- Python `==` against a string literal: equal strings compare equal,
every non-string value compares unequal. -/
def Json.eqStr : Json → String → Bool
  | .str a, b => a == b
  | _, _ => false

/-- Python `key in d` for a dict. -/
def Json.hasKey : Json → String → Bool
  | .obj fs, k => fs.any (fun p => p.1 == k)
  | _, _ => false

/-- Left-pad a digit string with `'0'` up to width `k`. -/
def padLeftZeros (s : String) (k : Nat) : String :=
  if s.length ≥ k then s else String.mk (List.replicate (k - s.length) '0') ++ s

/-- Python `str`/`repr` of a number: integers print without a point,
other rationals print as their (finite) decimal expansion when the
denominator divides a power of ten (computed on the reduced
numerator/denominator). -/
def ratPyStr (q : ℚ) : String :=
  if q.den = 1 then toString q.num
  else
    match (List.range 40).findSome? (fun k =>
        if 10 ^ (k + 1) % q.den = 0 then some (k + 1) else none) with
    | some k =>
        let a := (q.num * ((10 ^ k / q.den : Nat) : Int)).natAbs
        let sign := if q.num < 0 then "-" else ""
        sign ++ toString (a / 10 ^ k) ++ "." ++ padLeftZeros (toString (a % 10 ^ k)) k
    | none => toString q.num ++ "/" ++ toString q.den

/-- `leads pat s`: the char list `pat` is an initial segment of `s`
(Python `s.startswith(pat)` on the underlying characters). -/
def listLeads : List Char → List Char → Bool
  | [], _ => true
  | _ :: _, [] => false
  | a :: as, b :: bs => a == b && listLeads as bs

/-- Python `s.startswith(pat)`. -/
def pyStartsWith (s pat : String) : Bool := listLeads pat.data s.data

/-- Python `s.strip()`: remove leading and trailing whitespace. -/
def pyStrip (s : String) : String :=
  String.mk (((s.data.dropWhile Char.isWhitespace).reverse.dropWhile
    Char.isWhitespace).reverse)

mutual

/-- Python `repr` of a decoded value (as used when a container prints its
elements): `None`/`True`/`False`, numbers, quoted strings, lists, dicts. -/
def Json.pyRepr : Json → String
  | .null => "None"
  | .bool true => "True"
  | .bool false => "False"
  | .num q => ratPyStr q
  | .str s => "\x27" ++ s ++ "\x27"
  | .arr xs => "[" ++ reprElems xs ++ "]"
  | .obj fs => "\x7b" ++ reprFields fs ++ "\x7d"

/-- Comma-separated `repr`s of list elements. -/
def reprElems : List Json → String
  | [] => ""
  | [x] => Json.pyRepr x
  | x :: y :: xs => Json.pyRepr x ++ ", " ++ reprElems (y :: xs)

/-- Comma-separated `repr`s of dict entries. -/
def reprFields : List (String × Json) → String
  | [] => ""
  | [(k, v)] => "\x27" ++ k ++ "\x27: " ++ Json.pyRepr v
  | (k, v) :: f :: fs =>
      "\x27" ++ k ++ "\x27: " ++ Json.pyRepr v ++ ", " ++ reprFields (f :: fs)

end

/-- Python `str(x)` as interpolated by an f-string: a string prints
itself, every other value prints as its repr. -/
def Json.pyStr : Json → String
  | .str s => s
  | j => Json.pyRepr j

/-- Result of a `requests.get` call that returned: status code, the
outcome of `.json()` (which may raise a decode error), `.text`, the
already-defaulted `headers.get("content-type", "")`, and
`.elapsed.total_seconds()`. -/
structure HttpResponse where
  status_code : Nat
  jsonBody : Except String Json
  text : String
  contentType : String
  elapsedSeconds : ℚ

/-- Result of a `subprocess.run` call that returned (no exception):
`returncode` and captured `stdout`. -/
structure ProcResult where
  returncode : Int
  stdout : String

/-- The hardcoded default repository of `check_github_actions`. -/
def defaultRepo : String := "rjweld21/openclaw-ec2-deploy"

/-- The GitHub API URL built at line 17 of the script. -/
def ghRunsUrl (repo : String) : String :=
  "https://api.github.com/repos/" ++ repo ++ "/actions/runs"

/-- The `try:` block of `check_github_actions` (lines 16-34): on status
200, decode the body, read `workflow_runs` (default `[]`), and if the list
is truthy build the result dict from its first entry; otherwise fall
through to `return None`.  `Except.error` is a raised exception. -/
def ghTry (resp : Except String HttpResponse) : Except String (Option Json) := do
  let response ← resp
  if response.status_code = 200 then
    let data ← response.jsonBody
    let runs ← data.dictGet "workflow_runs" (Json.arr [])
    if runs.truthy then
      let latest ← runs.index0
      let st ← latest.item "status"
      let concl ← latest.dictGet "conclusion" Json.null
      let ca ← latest.item "created_at"
      let hu ← latest.item "html_url"
      let rn ← latest.item "run_number"
      pure (some (Json.obj [("status", st), ("conclusion", concl),
        ("created_at", ca), ("html_url", hu), ("run_number", rn)]))
    else
      pure none
  else
    pure none

/-- Outcome of one check: the returned value, the URLs requested over
HTTP, and the diagnostic lines printed by the check itself. -/
structure GhCheckOut where
  result : Option Json
  requests : List String
  logs : List String

/-- `check_github_actions` (lines 14-37).  `http` gives the outcome of
`requests.get` at each URL.  The single request is always issued; the
`except` handler prints a diagnostic and returns `None`. -/
def check_github_actions (http : String → Except String HttpResponse)
    (repo : String) : GhCheckOut :=
  let url := ghRunsUrl repo
  match ghTry (http url) with
  | .ok r => ⟨r, [url], []⟩
  | .error e => ⟨none, [url], ["Error checking GitHub Actions: " ++ e]⟩

/-- External outcomes consumed by `check_aws_infrastructure`: the two
`subprocess.run` invocations (ASG then load balancer) and the behaviour of
`json.loads` on captured stdout. -/
structure InfraEnv where
  asgRun : Except String ProcResult
  lbRun : Except String ProcResult
  jsonLoads : String → Except String Json

/-- The `try:` block of `check_aws_infrastructure` (lines 41-68): run the
ASG query; on exit code 0 decode its stdout, run the load-balancer query,
decode that stdout only when its exit code is 0 (else keep `{}`), and
return the combined dict.  A non-zero ASG exit code falls through to
`return None`; any `Except.error` is a raised exception. -/
def infraTry (env : InfraEnv) : Except String (Option Json) := do
  let result ← env.asgRun
  if result.returncode = 0 then
    let asg_data ← env.jsonLoads result.stdout
    let lb_result ← env.lbRun
    let lb_data ←
      if lb_result.returncode = 0 then
        env.jsonLoads lb_result.stdout
      else
        pure (Json.obj [])
    pure (some (Json.obj [("asg", asg_data), ("load_balancer", lb_data)]))
  else
    pure none

/-- `check_aws_infrastructure` (lines 39-72): result plus printed
diagnostic lines.  The `except` handler prints and the function returns
`None`. -/
def check_aws_infrastructure (env : InfraEnv) : Option Json × List String :=
  match infraTry env with
  | .ok r => (r, [])
  | .error e => (none, ["Error checking AWS infrastructure: " ++ e])

/-- External outcomes consumed by `check_application_health`: the DNS
`subprocess.run` invocation and the outcome of `requests.get` at each
URL. -/
structure HealthEnv where
  dnsRun : Except String ProcResult
  http : String → Except String HttpResponse

/-- Python truthiness of the `url` variable (`if not url:`): `None` and
the empty string are falsy. -/
def optStrTruthy : Option String → Bool
  | none => false
  | some s => !s.isEmpty

/-- URL resolution of `check_application_health` (lines 76-91): when the
supplied url is falsy, query the load balancer DNS name; on exit code 0
set `url = "http://" ++ stdout.strip() ++ "/health"`, on failure (non-zero
exit or raised exception, swallowed by the bare `except: pass`) leave the
url unchanged. -/
def resolveHealthUrl (env : HealthEnv) (url : Option String) : Option String :=
  if optStrTruthy url then url
  else
    match env.dnsRun with
    | .error _ => url
    | .ok result =>
        if result.returncode = 0 then
          some ("http://" ++ pyStrip result.stdout ++ "/health")
        else
          url

/-- `check_application_health` (lines 74-114): returns the health dict (or
`None`) together with the list of URLs actually requested over HTTP.  With
a falsy url after resolution no request is issued; otherwise a GET is
issued and classified: status 200 yields the healthy dict whose `data` is
the decoded JSON body when the content type starts with
`application/json` and the raw text otherwise; any other status yields the
unhealthy dict; any raised exception (transport error, or a JSON decode
error from `.json()`) yields the error dict carrying `str(e)`. -/
def check_application_health (env : HealthEnv) (url : Option String) :
    Option Json × List String :=
  match resolveHealthUrl env url with
  | none => (none, [])
  | some s =>
      if s.isEmpty then (none, [])
      else
        match env.http s with
        | .error e =>
            (some (Json.obj [("status", Json.str "error"),
              ("error", Json.str e)]), [s])
        | .ok response =>
            if response.status_code = 200 then
              match (if pyStartsWith response.contentType "application/json" then
                  response.jsonBody
                else
                  .ok (Json.str response.text)) with
              | .ok d =>
                  (some (Json.obj [("status", Json.str "healthy"),
                    ("response_time", Json.num response.elapsedSeconds),
                    ("data", d)]), [s])
              | .error e =>
                  (some (Json.obj [("status", Json.str "error"),
                    ("error", Json.str e)]), [s])
            else
              (some (Json.obj [("status", Json.str "unhealthy"),
                ("status_code", Json.num response.status_code),
                ("response_time", Json.num response.elapsedSeconds)]), [s])

/-- Python format spec `:.2f` applied to a dict value: numbers (and bools,
which Python coerces) are rendered with exactly two digits after the
point, rounding half up (`m` below is the floor of `100 q + 1/2` computed
on the reduced numerator and denominator); other values raise. -/
def Json.formatF2 : Json → Except String String
  | .num q =>
      let m : Int := Int.fdiv (200 * q.num + (q.den : Int)) (2 * (q.den : Int))
      let a := m.natAbs
      let sign := if m < 0 then "-" else ""
      .ok (sign ++ toString (a / 100) ++ "." ++ padLeftZeros (toString (a % 100)) 2)
  | .bool true => .ok "1.00"
  | .bool false => .ok "0.00"
  | _ => .error "ValueError: unknown format code f"

/-- The `"=" * 50` banner line of `main`. -/
def bar50 : String := String.mk (List.replicate 50 '=')

/-- GitHub section of `main` (lines 124-131): the lines printed after the
section header, given the value returned by `check_github_actions`. -/
def ghSection (gh : Option Json) : Except String (List String) :=
  match gh with
  | some g =>
      if g.truthy then do
        let rn ← g.item "run_number"
        let st ← g.item "status"
        let concl ← g.item "conclusion"
        let ca ← g.item "created_at"
        let hu ← g.item "html_url"
        pure (["  Run #" ++ rn.pyStr ++ ": " ++ st.pyStr]
          ++ (if concl.truthy then ["  Conclusion: " ++ concl.pyStr] else [])
          ++ ["  Started: " ++ ca.pyStr, "  URL: " ++ hu.pyStr])
      else
        pure ["  ❌ Could not fetch GitHub Actions status"]
  | none => .ok ["  ❌ Could not fetch GitHub Actions status"]

/-- AWS section of `main` (lines 135-144): the lines printed after the
section header, given the value returned by `check_aws_infrastructure`. -/
def awsSection (aws : Option Json) : Except String (List String) :=
  match aws with
  | some a =>
      if a.truthy then do
        let asg ← a.dictGet "asg" (Json.obj [])
        let lb ← a.dictGet "load_balancer" (Json.obj [])
        let inst ← asg.dictGet "Instances" (Json.num 0)
        let des ← asg.dictGet "Desired" (Json.num 0)
        let line1 := "  Auto Scaling Group: " ++ inst.pyStr ++ "/" ++ des.pyStr
          ++ " instances"
        if lb.truthy then do
          let st ← lb.dictGet "State" (Json.str "unknown")
          let dns ← lb.dictGet "DNS" (Json.str "N/A")
          pure [line1, "  Load Balancer: " ++ st.pyStr ++ " - " ++ dns.pyStr]
        else
          pure [line1]
      else
        pure ["  ❌ Could not fetch AWS infrastructure status"]
  | none => .ok ["  ❌ Could not fetch AWS infrastructure status"]

/-- Health section of `main` (lines 148-157): the lines printed after the
section header, given the value returned by `check_application_health`. -/
def healthSection (health : Option Json) : Except String (List String) :=
  match health with
  | some h =>
      if h.truthy then do
        let st ← h.item "status"
        if st.eqStr "healthy" then do
          let rt ← h.item "response_time"
          let rts ← rt.formatF2
          let line1 := "  ✅ Application is healthy (response: " ++ rts ++ "s)"
          if h.hasKey "data" then do
            let d ← h.item "data"
            pure [line1, "  Data: " ++ d.pyStr]
          else
            pure [line1]
        else
          pure ["  ❌ Application unhealthy: " ++ h.pyStr]
      else
        pure ["  ⏳ Application URL not available yet"]
  | none => .ok ["  ⏳ Application URL not available yet"]

/-- The report `main` prints (lines 118-160), as the list of `print`
arguments, given the three check results and the formatted current time,
or the exception raised while formatting. -/
def renderReport (gh aws health : Option Json) (now : String) :
    Except String (List String) := do
  let g ← ghSection gh
  let a ← awsSection aws
  let h ← healthSection health
  pure ([ "🚀 OpenClaw Deployment Monitor", bar50,
      "\n📋 GitHub Actions Status:"] ++ g
    ++ ["\n🏗️  AWS Infrastructure Status:"] ++ a
    ++ ["\n💚 Application Health:"] ++ h
    ++ ["\n" ++ bar50, "Check completed at " ++ now])

/-- Observable actions of the `__main__` driver (lines 162-172): the
startup banner of continuous mode, one full `main()` report cycle, a
`time.sleep` of the given number of seconds, and the
`"\nMonitoring stopped."` message printed by the interrupt handler. -/
inductive DriverEvent where
  | startMsg : DriverEvent
  | cycle : DriverEvent
  | sleep : Nat → DriverEvent
  | stopMsg : DriverEvent
deriving DecidableEq, BEq

/-- The body of `while True: main(); time.sleep(30)` as a stream of atomic
actions: even positions run a report cycle, odd positions sleep 30s. -/
def loopBody (i : Nat) : DriverEvent :=
  if i % 2 = 0 then DriverEvent.cycle else DriverEvent.sleep 30

/-- Continuous-mode trace when the external interrupt arrives during the
`(k+1)`-th atomic loop action (so exactly `k` actions completed): the
startup banner, the completed actions, then the stop message printed by
the `except KeyboardInterrupt` handler.  The function is total: the
interrupt is always caught and the trace always ends with the stop
message. -/
def driverContinuous (k : Nat) : List DriverEvent :=
  DriverEvent.startMsg :: ((List.range k).map loopBody ++ [DriverEvent.stopMsg])

/-- Number of completed report cycles in a driver trace. -/
def cycleCount (tr : List DriverEvent) : Nat := tr.count DriverEvent.cycle

/-- `pat` occurs as a contiguous run somewhere in `s`. -/
def listOccurs (pat : List Char) : List Char → Bool
  | [] => listLeads pat []
  | c :: cs => listLeads pat (c :: cs) || listOccurs pat cs

/-- The string `pat` occurs as a substring of `s`. -/
def strContains (s pat : String) : Bool := listOccurs pat.data s.data

/-- Join printed lines with newlines, as they appear on the terminal. -/
def joinLines : List String → String
  | [] => ""
  | [x] => x
  | x :: y :: xs => x ++ "\n" ++ joinLines (y :: xs)

/-- The CiRunStatus dict of the report-renderer test vector: run 42,
completed, success. -/
def ghDict42 : Json := Json.obj [("status", Json.str "completed"),
  ("conclusion", Json.str "success"),
  ("created_at", Json.str "2024-01-01T00:00:00Z"),
  ("html_url", Json.str "https://github.com/rjweld21/openclaw-ec2-deploy/actions/runs/1"),
  ("run_number", Json.num 42)]

/-- The InfraStatus dict of the report-renderer test vector: 2/2
instances, load balancer active. -/
def awsDict22 : Json := Json.obj [
  ("asg", Json.obj [("Status", Json.str "EC2"), ("Instances", Json.num 2),
    ("Desired", Json.num 2)]),
  ("load_balancer", Json.obj [("State", Json.str "active"),
    ("DNS", Json.str "openclaw-dev-alb-1.elb.amazonaws.com")])]

/-- The HealthStatus dict of the report-renderer test vector: healthy,
response time 0.15s, data `{"ok": true}`. -/
def healthy015 : Json := Json.obj [("status", Json.str "healthy"),
  ("response_time", Json.num (mkRat 3 20)),
  ("data", Json.obj [("ok", Json.bool true)])]

/-- The report of the renderer test vector, joined into the terminal
text. -/
def reportC9 : Except String String :=
  (renderReport (some ghDict42) (some awsDict22) (some healthy015)
    "2025-06-01 12:00:00").map joinLines

/-- A 200 response with JSON content type and decodable body. -/
def respJson200 : HttpResponse :=
  ⟨200, Except.ok (Json.obj [("ok", Json.bool true)]), "raw body",
    "application/json; charset=utf-8", mkRat 3 20⟩

/-- A 200 response with a non-JSON content type. -/
def respText200 : HttpResponse :=
  ⟨200, Except.error "Expecting value: line 1 column 1 (char 0)", "OK!",
    "text/plain; charset=utf-8", mkRat 1 4⟩

/-- A 404 response. -/
def respNotFound : HttpResponse :=
  ⟨404, Except.error "Expecting value: line 1 column 1 (char 0)", "Not Found",
    "text/html", 1⟩

/-- A 200 response whose content type indicates JSON but whose body does
not decode. -/
def respBadJson200 : HttpResponse :=
  ⟨200, Except.error "Expecting value: line 1 column 1 (char 0)", "<html>",
    "application/json", mkRat 1 4⟩

/-- Health environment whose HTTP layer always returns `respJson200`. -/
def envJson200 : HealthEnv := ⟨Except.error "unused", fun _ => Except.ok respJson200⟩

/-- Health environment whose HTTP layer always returns `respText200`. -/
def envText200 : HealthEnv := ⟨Except.error "unused", fun _ => Except.ok respText200⟩

/-- Health environment whose HTTP layer always returns `respNotFound`. -/
def env404 : HealthEnv := ⟨Except.error "unused", fun _ => Except.ok respNotFound⟩

/-- Health environment whose HTTP layer always refuses the connection. -/
def envRefused : HealthEnv :=
  ⟨Except.error "unused", fun _ => Except.error "Connection refused"⟩

/-- Health environment whose HTTP layer always returns `respBadJson200`. -/
def envBadJson : HealthEnv := ⟨Except.error "unused", fun _ => Except.ok respBadJson200⟩

/-- Health environment where the DNS lookup exits with code 254 and any
HTTP request would fail loudly. -/
def envDnsFail : HealthEnv :=
  ⟨Except.ok ⟨254, ""⟩, fun _ => Except.error "should not be called"⟩

/-- Health environment where the DNS lookup process itself raises. -/
def envDnsRaise : HealthEnv :=
  ⟨Except.error "FileNotFoundError: aws", fun _ => Except.error "should not be called"⟩

/-- Decoded ASG query output used by the infrastructure fixtures. -/
def asgJsonFx : Json := Json.obj [("Status", Json.str "EC2"),
  ("Instances", Json.num 2), ("Desired", Json.num 2)]

/-- Decoded load-balancer query output used by the infrastructure
fixtures. -/
def lbJsonFx : Json := Json.obj [("State", Json.str "active"),
  ("DNS", Json.str "openclaw-dev-alb-1.elb.amazonaws.com")]

/-- `json.loads` behaviour of the fixtures: the two canned stdouts decode,
anything else raises a decode error. -/
def loadsFx : String → Except String Json := fun s =>
  if s = "ASG_JSON" then Except.ok asgJsonFx
  else if s = "LB_JSON" then Except.ok lbJsonFx
  else Except.error "Expecting value: line 1 column 1 (char 0)"

/-- Infrastructure environment: ASG call succeeds, LB call exits 254. -/
def envInfraLbFail : InfraEnv := ⟨Except.ok ⟨0, "ASG_JSON"⟩, Except.ok ⟨254, ""⟩, loadsFx⟩

/-- Infrastructure environment: the ASG subprocess call raises (missing
binary). -/
def envInfraNoCli : InfraEnv :=
  ⟨Except.error "FileNotFoundError: aws", Except.ok ⟨0, "LB_JSON"⟩, loadsFx⟩

/-- Infrastructure environment: both calls exit 0 but the LB stdout does
not decode. -/
def envInfraLbBadJson : InfraEnv :=
  ⟨Except.ok ⟨0, "ASG_JSON"⟩, Except.ok ⟨0, "garbage"⟩, loadsFx⟩

/-- Infrastructure environment: the ASG call exits non-zero. -/
def envInfraAsgExit : InfraEnv :=
  ⟨Except.ok ⟨255, ""⟩, Except.ok ⟨0, "LB_JSON"⟩, loadsFx⟩

/-- Infrastructure environment: the ASG call succeeds, then the LB
subprocess call itself raises. -/
def envInfraLbRaise : InfraEnv :=
  ⟨Except.ok ⟨0, "ASG_JSON"⟩, Except.error "OSError: subprocess failed", loadsFx⟩

/-- The latest workflow run of the CI fixtures. -/
def ghRun7 : Json := Json.obj [("status", Json.str "completed"),
  ("conclusion", Json.str "success"),
  ("created_at", Json.str "2024-01-01T00:00:00Z"),
  ("html_url", Json.str "https://github.com/rjweld21/openclaw-ec2-deploy/actions/runs/7"),
  ("run_number", Json.num 7)]

/-- The decoded runs-listing body of the CI fixtures. -/
def ghBodyFx : Json := Json.obj [("total_count", Json.num 1),
  ("workflow_runs", Json.arr [ghRun7])]

/-- CI HTTP layer returning a 200 listing with one run. -/
def ghHttpOk : String → Except String HttpResponse := fun _ =>
  Except.ok ⟨200, Except.ok ghBodyFx, "", "application/json", 1⟩

/-- CI HTTP layer returning a 404. -/
def ghHttp404 : String → Except String HttpResponse := fun _ =>
  Except.ok ⟨404, Except.error "Expecting value", "", "text/plain", 1⟩

/-- CI HTTP layer raising a transport error. -/
def ghHttpDown : String → Except String HttpResponse := fun _ =>
  Except.error "ConnectionError: host unreachable"

/-- CI HTTP layer returning a 200 listing with an empty run list. -/
def ghHttpEmpty : String → Except String HttpResponse := fun _ =>
  Except.ok ⟨200, Except.ok (Json.obj [("total_count", Json.num 0),
    ("workflow_runs", Json.arr [])]), "", "application/json", 1⟩

/-- C1: given a URL, the health check classifies the HTTP outcome: status
200 yields the healthy dict carrying the elapsed time and, as data, the
decoded JSON body when the content type indicates JSON and the raw text
otherwise; any other status yields the unhealthy dict carrying the status
code and elapsed time; a transport exception yields the error dict
carrying the exception's (non-empty) message. -/
theorem check_health_classification (env : HealthEnv) (u : String)
    (hu : u.isEmpty = false) :
    (∀ resp j, env.http u = .ok resp → resp.status_code = 200 →
      pyStartsWith resp.contentType "application/json" = true →
      resp.jsonBody = .ok j →
      check_application_health env (some u) =
        (some (Json.obj [("status", Json.str "healthy"),
          ("response_time", Json.num resp.elapsedSeconds), ("data", j)]), [u])) ∧
    (∀ resp, env.http u = .ok resp → resp.status_code = 200 →
      pyStartsWith resp.contentType "application/json" = false →
      check_application_health env (some u) =
        (some (Json.obj [("status", Json.str "healthy"),
          ("response_time", Json.num resp.elapsedSeconds),
          ("data", Json.str resp.text)]), [u])) ∧
    (∀ resp, env.http u = .ok resp → resp.status_code ≠ 200 →
      check_application_health env (some u) =
        (some (Json.obj [("status", Json.str "unhealthy"),
          ("status_code", Json.num resp.status_code),
          ("response_time", Json.num resp.elapsedSeconds)]), [u])) ∧
    (∀ e, env.http u = .error e → e ≠ "" →
      check_application_health env (some u) =
        (some (Json.obj [("status", Json.str "error"),
          ("error", Json.str e)]), [u]) ∧ e ≠ "") := by
  refine ⟨?_, ?_, ?_, ?_⟩
  · intro resp j h1 h2 h3 h4
    simp [check_application_health, resolveHealthUrl, optStrTruthy, hu, h1, h2, h3, h4]
  · intro resp h1 h2 h3
    simp [check_application_health, resolveHealthUrl, optStrTruthy, hu, h1, h2, h3]
  · intro resp h1 h2
    simp [check_application_health, resolveHealthUrl, optStrTruthy, hu, h1, h2]
  · intro e h1 h2
    refine ⟨?_, h2⟩
    simp [check_application_health, resolveHealthUrl, optStrTruthy, hu, h1]

/-- Witness for C1: the four classifications at concrete inputs. -/
theorem check_health_classification_witness :
    check_application_health envJson200 (some "http://h/health") =
      (some (Json.obj [("status", Json.str "healthy"),
        ("response_time", Json.num (mkRat 3 20)),
        ("data", Json.obj [("ok", Json.bool true)])]), ["http://h/health"]) ∧
    check_application_health envText200 (some "http://h/health") =
      (some (Json.obj [("status", Json.str "healthy"),
        ("response_time", Json.num (mkRat 1 4)),
        ("data", Json.str "OK!")]), ["http://h/health"]) ∧
    check_application_health env404 (some "http://h/health") =
      (some (Json.obj [("status", Json.str "unhealthy"),
        ("status_code", Json.num 404),
        ("response_time", Json.num 1)]), ["http://h/health"]) ∧
    (check_application_health envRefused (some "http://h/health") =
      (some (Json.obj [("status", Json.str "error"),
        ("error", Json.str "Connection refused")]), ["http://h/health"]) ∧
      "Connection refused" ≠ "") :=
  ⟨(check_health_classification envJson200 "http://h/health" rfl).1 respJson200
      (Json.obj [("ok", Json.bool true)]) rfl rfl rfl rfl,
    (check_health_classification envText200 "http://h/health" rfl).2.1 respText200
      rfl rfl rfl,
    (check_health_classification env404 "http://h/health" rfl).2.2.1 respNotFound
      rfl (by decide),
    (check_health_classification envRefused "http://h/health" rfl).2.2.2
      "Connection refused" rfl (by decide)⟩

/-- Counterexample for C2: a transport failure injected into the HTTP
request of the health check does not yield `none`; the check returns the
error dict instead. -/
theorem health_transport_failure_not_none :
    check_application_health envRefused (some "http://h/health") =
      (some (Json.obj [("status", Json.str "error"),
        ("error", Json.str "Connection refused")]), ["http://h/health"]) ∧
    some (Json.obj [("status", Json.str "error"),
      ("error", Json.str "Connection refused")]) ≠ (none : Option Json) :=
  ⟨rfl, Option.some_ne_none _⟩

/-- C2 (amended): no injected transport or process failure escapes any of
the three checks.  The CI check returns `none` on a transport failure.
The infrastructure check returns `none` when either subprocess invocation
(ASG or load balancer) raises and when the ASG call exits non-zero, while
a load-balancer non-zero exit yields the partial dict with an empty
load-balancer field — a result, not `none`.  The health check returns
`none` when the URL-resolution subprocess raises or exits non-zero, while
a transport failure of the HTTP request itself yields the error dict (not
`none`). -/
theorem checks_failure_containment :
    (∀ (http : String → Except String HttpResponse) (repo : String) (e : String),
      http (ghRunsUrl repo) = .error e →
      (check_github_actions http repo).result = none) ∧
    (∀ (env : InfraEnv) (e : String), env.asgRun = .error e →
      (check_aws_infrastructure env).1 = none) ∧
    (∀ (env : InfraEnv) (r : ProcResult), env.asgRun = .ok r →
      r.returncode ≠ 0 → check_aws_infrastructure env = (none, [])) ∧
    (∀ (env : InfraEnv) (r1 : ProcResult) (a : Json) (e : String),
      env.asgRun = .ok r1 → r1.returncode = 0 →
      env.jsonLoads r1.stdout = .ok a → env.lbRun = .error e →
      check_aws_infrastructure env =
        (none, ["Error checking AWS infrastructure: " ++ e])) ∧
    (∀ (env : InfraEnv) (r1 r2 : ProcResult) (a : Json),
      env.asgRun = .ok r1 → r1.returncode = 0 →
      env.jsonLoads r1.stdout = .ok a → env.lbRun = .ok r2 →
      r2.returncode ≠ 0 →
      check_aws_infrastructure env =
        (some (Json.obj [("asg", a), ("load_balancer", Json.obj [])]), [])) ∧
    (∀ (env : HealthEnv) (e : String), env.dnsRun = .error e →
      check_application_health env none = (none, [])) ∧
    (∀ (env : HealthEnv) (r : ProcResult), env.dnsRun = .ok r →
      r.returncode ≠ 0 → check_application_health env none = (none, [])) ∧
    (∀ (env : HealthEnv) (u : String) (e : String), u.isEmpty = false →
      env.http u = .error e →
      (check_application_health env (some u)).1 =
        some (Json.obj [("status", Json.str "error"), ("error", Json.str e)])) := by
  refine ⟨?_, ?_, ?_, ?_, ?_, ?_, ?_, ?_⟩
  · intro http repo e h
    simp [check_github_actions, ghTry, h, Bind.bind, Except.bind]
  · intro env e h
    simp [check_aws_infrastructure, infraTry, h, Bind.bind, Except.bind]
  · intro env r h hr
    simp [check_aws_infrastructure, infraTry, h, hr, Bind.bind, Except.bind,
      Pure.pure, Except.pure]
  · intro env r1 a e h1 h2 h3 h4
    simp [check_aws_infrastructure, infraTry, h1, h2, h3, h4, Bind.bind,
      Except.bind, Functor.map, Except.map, Pure.pure, Except.pure]
  · intro env r1 r2 a h1 h2 h3 h4 h5
    simp [check_aws_infrastructure, infraTry, h1, h2, h3, h4, h5, Bind.bind,
      Except.bind, Functor.map, Except.map, Pure.pure, Except.pure]
  · intro env e h
    simp [check_application_health, resolveHealthUrl, optStrTruthy, h]
  · intro env r h hr
    simp [check_application_health, resolveHealthUrl, optStrTruthy, h, hr]
  · intro env u e hu h
    simp [check_application_health, resolveHealthUrl, optStrTruthy, hu, h]

/-- Witness for C2 (amended): concrete failures for each conjunct — a CI
transport error; an ASG raise, an ASG non-zero exit, an LB raise after the
ASG data was obtained, and an LB non-zero exit yielding the partial dict;
a DNS raise, a DNS non-zero exit, and a refused HTTP connection. -/
theorem checks_failure_containment_witness :
    (check_github_actions ghHttpDown defaultRepo).result = none ∧
    (check_aws_infrastructure envInfraNoCli).1 = none ∧
    check_aws_infrastructure envInfraAsgExit = (none, []) ∧
    check_aws_infrastructure envInfraLbRaise =
      (none, ["Error checking AWS infrastructure: OSError: subprocess failed"]) ∧
    check_aws_infrastructure envInfraLbFail =
      (some (Json.obj [("asg", asgJsonFx), ("load_balancer", Json.obj [])]), []) ∧
    check_application_health envDnsRaise none = (none, []) ∧
    check_application_health envDnsFail none = (none, []) ∧
    (check_application_health envRefused (some "http://h/health")).1 =
      some (Json.obj [("status", Json.str "error"),
        ("error", Json.str "Connection refused")]) :=
  ⟨checks_failure_containment.1 ghHttpDown defaultRepo
      "ConnectionError: host unreachable" rfl,
    checks_failure_containment.2.1 envInfraNoCli "FileNotFoundError: aws" rfl,
    checks_failure_containment.2.2.1 envInfraAsgExit ⟨255, ""⟩ rfl (by decide),
    checks_failure_containment.2.2.2.1 envInfraLbRaise ⟨0, "ASG_JSON"⟩
      asgJsonFx "OSError: subprocess failed" rfl rfl rfl rfl,
    checks_failure_containment.2.2.2.2.1 envInfraLbFail ⟨0, "ASG_JSON"⟩
      ⟨254, ""⟩ asgJsonFx rfl rfl rfl rfl (by decide),
    checks_failure_containment.2.2.2.2.2.1 envDnsRaise "FileNotFoundError: aws" rfl,
    checks_failure_containment.2.2.2.2.2.2.1 envDnsFail ⟨254, ""⟩ rfl (by decide),
    checks_failure_containment.2.2.2.2.2.2.2 envRefused "http://h/health"
      "Connection refused" rfl rfl⟩

/-- C3: when the ASG sub-call succeeds (exit 0, decodable stdout) and the
load-balancer sub-call exits non-zero, the infrastructure check still
returns the ASG data together with an empty load-balancer dict. -/
theorem infra_lb_failure_partial_result (env : InfraEnv) (r1 r2 : ProcResult)
    (a : Json) (h1 : env.asgRun = .ok r1) (h2 : r1.returncode = 0)
    (h3 : env.jsonLoads r1.stdout = .ok a) (h4 : env.lbRun = .ok r2)
    (h5 : r2.returncode ≠ 0) :
    check_aws_infrastructure env =
      (some (Json.obj [("asg", a), ("load_balancer", Json.obj [])]), []) := by
  simp [check_aws_infrastructure, infraTry, h1, h2, h3, h4, h5, Bind.bind,
    Except.bind, Functor.map, Except.map, Pure.pure, Except.pure]

/-- Witness for C3: ASG succeeds with 2/2 instances, LB exits 254. -/
theorem infra_lb_failure_partial_result_witness :
    check_aws_infrastructure envInfraLbFail =
      (some (Json.obj [("asg", asgJsonFx), ("load_balancer", Json.obj [])]), []) :=
  infra_lb_failure_partial_result envInfraLbFail ⟨0, "ASG_JSON"⟩ ⟨254, ""⟩
    asgJsonFx rfl rfl rfl rfl (by decide)

/-- C4: any exception raised inside the infrastructure check (a failing
CLI invocation, or a JSON decode error on either sub-call's stdout) makes
the whole check return `none` — discarding ASG data already obtained — and
is logged, not propagated.  Stated for the general raise, for a raising
ASG invocation, and for the decode failure of the LB stdout after the ASG
data was obtained. -/
theorem infra_exception_discards_all :
    (∀ (env : InfraEnv) (e : String), infraTry env = .error e →
      check_aws_infrastructure env =
        (none, ["Error checking AWS infrastructure: " ++ e])) ∧
    (∀ (env : InfraEnv) (e : String), env.asgRun = .error e →
      check_aws_infrastructure env =
        (none, ["Error checking AWS infrastructure: " ++ e])) ∧
    (∀ (env : InfraEnv) (r1 r2 : ProcResult) (a : Json) (e : String),
      env.asgRun = .ok r1 → r1.returncode = 0 →
      env.jsonLoads r1.stdout = .ok a →
      env.lbRun = .ok r2 → r2.returncode = 0 →
      env.jsonLoads r2.stdout = .error e →
      check_aws_infrastructure env =
        (none, ["Error checking AWS infrastructure: " ++ e])) := by
  refine ⟨?_, ?_, ?_⟩
  · intro env e h
    simp [check_aws_infrastructure, h]
  · intro env e h
    simp [check_aws_infrastructure, infraTry, h, Bind.bind, Except.bind]
  · intro env r1 r2 a e h1 h2 h3 h4 h5 h6
    simp [check_aws_infrastructure, infraTry, h1, h2, h3, h4, h5, h6, Bind.bind,
      Except.bind, Functor.map, Except.map, Pure.pure, Except.pure]

/-- Witness for C4: the ASG data is already decoded, then the LB stdout
fails to decode; the whole check degrades to `none` with one log line. -/
theorem infra_exception_discards_all_witness :
    check_aws_infrastructure envInfraLbBadJson =
      (none, ["Error checking AWS infrastructure: " ++
        "Expecting value: line 1 column 1 (char 0)"]) :=
  infra_exception_discards_all.2.2 envInfraLbBadJson ⟨0, "ASG_JSON"⟩
    ⟨0, "garbage"⟩ asgJsonFx "Expecting value: line 1 column 1 (char 0)"
    rfl rfl rfl rfl rfl rfl

/-- C5: with no explicit URL, a failing DNS-lookup CLI call (raised
exception or non-zero exit code) makes the health check return `none`
with an empty list of issued HTTP requests. -/
theorem health_dns_failure_no_http (env : HealthEnv)
    (h : (∃ e, env.dnsRun = .error e) ∨
      ∃ r, env.dnsRun = .ok r ∧ r.returncode ≠ 0) :
    check_application_health env none = (none, []) := by
  rcases h with ⟨e, he⟩ | ⟨r, hr, hrc⟩
  · simp [check_application_health, resolveHealthUrl, optStrTruthy, he]
  · simp [check_application_health, resolveHealthUrl, optStrTruthy, hr, hrc]

/-- Witness for C5: concrete raising and non-zero-exit DNS lookups. -/
theorem health_dns_failure_no_http_witness :
    check_application_health envDnsRaise none = (none, []) ∧
    check_application_health envDnsFail none = (none, []) :=
  ⟨health_dns_failure_no_http envDnsRaise
      (Or.inl ⟨"FileNotFoundError: aws", rfl⟩),
    health_dns_failure_no_http envDnsFail
      (Or.inr ⟨⟨254, ""⟩, rfl, by decide⟩)⟩

/-- C6: when the runs listing returns status 200 with a truthy (non-empty)
run list, the CI check issues exactly one request — to the runs-listing
URL — and returns the dict built from the first entry's status,
conclusion, creation timestamp, web URL and run number. -/
theorem gh_success_single_request_first_run
    (http : String → Except String HttpResponse) (repo : String)
    (resp : HttpResponse) (data runs latest st concl ca hu rn : Json)
    (h1 : http (ghRunsUrl repo) = .ok resp) (h2 : resp.status_code = 200)
    (h3 : resp.jsonBody = .ok data)
    (h4 : data.dictGet "workflow_runs" (Json.arr []) = .ok runs)
    (h5 : runs.truthy = true) (h6 : runs.index0 = .ok latest)
    (h7 : latest.item "status" = .ok st)
    (h8 : latest.dictGet "conclusion" Json.null = .ok concl)
    (h9 : latest.item "created_at" = .ok ca)
    (h10 : latest.item "html_url" = .ok hu)
    (h11 : latest.item "run_number" = .ok rn) :
    check_github_actions http repo =
      ⟨some (Json.obj [("status", st), ("conclusion", concl),
        ("created_at", ca), ("html_url", hu), ("run_number", rn)]),
        [ghRunsUrl repo], []⟩ := by
  simp [check_github_actions, ghTry, h1, h2, h3, h4, h5, h6, h7, h8, h9, h10,
    h11, Bind.bind, Except.bind, Functor.map, Except.map, Pure.pure, Except.pure]

/-- Witness for C6: a 200 listing containing run 7. -/
theorem gh_success_single_request_first_run_witness :
    check_github_actions ghHttpOk defaultRepo =
      ⟨some (Json.obj [("status", Json.str "completed"),
        ("conclusion", Json.str "success"),
        ("created_at", Json.str "2024-01-01T00:00:00Z"),
        ("html_url", Json.str "https://github.com/rjweld21/openclaw-ec2-deploy/actions/runs/7"),
        ("run_number", Json.num 7)]), [ghRunsUrl defaultRepo], []⟩ :=
  gh_success_single_request_first_run ghHttpOk defaultRepo
    ⟨200, Except.ok ghBodyFx, "", "application/json", 1⟩ ghBodyFx
    (Json.arr [ghRun7]) ghRun7 (Json.str "completed") (Json.str "success")
    (Json.str "2024-01-01T00:00:00Z")
    (Json.str "https://github.com/rjweld21/openclaw-ec2-deploy/actions/runs/7")
    (Json.num 7) rfl rfl rfl rfl rfl rfl rfl rfl rfl rfl rfl

/-- Counterexample for C7: on a 404 response the CI check does return
`none`, but it prints no diagnostic line at all — the claim that every
such failure "is logged as a diagnostic line" fails at this input. -/
theorem gh_non200_prints_nothing :
    (check_github_actions ghHttp404 defaultRepo).result = none ∧
    (check_github_actions ghHttp404 defaultRepo).logs = [] := ⟨rfl, rfl⟩

/-- C7 (amended): a network error, a non-200 response and an empty run
list all make the CI check return `none` and raise nothing; only the
network error is logged as a diagnostic line — a non-200 response or an
empty run list returns `none` silently. -/
theorem gh_failure_modes :
    (∀ (http : String → Except String HttpResponse) (repo e : String),
      http (ghRunsUrl repo) = .error e →
      check_github_actions http repo = ⟨none, [ghRunsUrl repo],
        ["Error checking GitHub Actions: " ++ e]⟩) ∧
    (∀ (http : String → Except String HttpResponse) (repo : String)
      (resp : HttpResponse), http (ghRunsUrl repo) = .ok resp →
      resp.status_code ≠ 200 →
      check_github_actions http repo = ⟨none, [ghRunsUrl repo], []⟩) ∧
    (∀ (http : String → Except String HttpResponse) (repo : String)
      (resp : HttpResponse) (data : Json), http (ghRunsUrl repo) = .ok resp →
      resp.status_code = 200 → resp.jsonBody = .ok data →
      data.dictGet "workflow_runs" (Json.arr []) = .ok (Json.arr []) →
      check_github_actions http repo = ⟨none, [ghRunsUrl repo], []⟩) := by
  refine ⟨?_, ?_, ?_⟩
  · intro http repo e h
    simp [check_github_actions, ghTry, h, Bind.bind, Except.bind]
  · intro http repo resp h1 h2
    simp [check_github_actions, ghTry, h1, h2, Bind.bind, Except.bind,
      Pure.pure, Except.pure]
  · intro http repo resp data h1 h2 h3 h4
    simp [check_github_actions, ghTry, h1, h2, h3, h4, Json.truthy, Bind.bind,
      Except.bind, Pure.pure, Except.pure]

/-- Witness for C7 (amended): a transport error, a 404 and an empty run
list at concrete inputs. -/
theorem gh_failure_modes_witness :
    check_github_actions ghHttpDown defaultRepo = ⟨none, [ghRunsUrl defaultRepo],
      ["Error checking GitHub Actions: ConnectionError: host unreachable"]⟩ ∧
    check_github_actions ghHttp404 defaultRepo =
      ⟨none, [ghRunsUrl defaultRepo], []⟩ ∧
    check_github_actions ghHttpEmpty defaultRepo =
      ⟨none, [ghRunsUrl defaultRepo], []⟩ :=
  ⟨gh_failure_modes.1 ghHttpDown defaultRepo "ConnectionError: host unreachable" rfl,
    gh_failure_modes.2.1 ghHttp404 defaultRepo
      ⟨404, Except.error "Expecting value", "", "text/plain", 1⟩ rfl (by decide),
    gh_failure_modes.2.2 ghHttpEmpty defaultRepo
      ⟨200, Except.ok (Json.obj [("total_count", Json.num 0),
        ("workflow_runs", Json.arr [])]), "", "application/json", 1⟩
      (Json.obj [("total_count", Json.num 0), ("workflow_runs", Json.arr [])])
      rfl rfl rfl rfl⟩

/-- C10: a 200 response whose content type indicates JSON but whose body
fails to decode yields the error dict carrying the decode exception's
message — not a healthy dict: the decode failure is absorbed by the same
handler that catches transport errors. -/
theorem health_json_decode_error (env : HealthEnv) (u : String)
    (resp : HttpResponse) (e : String) (hu : u.isEmpty = false)
    (h1 : env.http u = .ok resp) (h2 : resp.status_code = 200)
    (h3 : pyStartsWith resp.contentType "application/json" = true)
    (h4 : resp.jsonBody = .error e) :
    check_application_health env (some u) =
      (some (Json.obj [("status", Json.str "error"), ("error", Json.str e)]),
        [u]) := by
  simp [check_application_health, resolveHealthUrl, optStrTruthy, hu, h1, h2,
    h3, h4]

/-- Witness for C10: a 200 HTML error page served with a JSON content
type. -/
theorem health_json_decode_error_witness :
    check_application_health envBadJson (some "http://h/health") =
      (some (Json.obj [("status", Json.str "error"),
        ("error", Json.str "Expecting value: line 1 column 1 (char 0)")]),
        ["http://h/health"]) :=
  health_json_decode_error envBadJson "http://h/health" respBadJson200
    "Expecting value: line 1 column 1 (char 0)" rfl rfl rfl rfl rfl

/-- The loop actions completed before an interrupt contain one cycle per
even position: `(k+1)/2` cycles among the first `k` actions. -/
theorem loopBody_cycle_count (k : Nat) :
    ((List.range k).map loopBody).count DriverEvent.cycle = (k + 1) / 2 := by
  induction k with
  | zero => rfl
  | succ n ih =>
    rw [List.range_succ, List.map_append, List.count_append, ih]
    by_cases h : n % 2 = 0
    · have hb : loopBody n = DriverEvent.cycle := by simp [loopBody, h]
      rw [List.map_cons, List.map_nil, hb]
      have : [DriverEvent.cycle].count DriverEvent.cycle = 1 := rfl
      rw [this]
      omega
    · have hb : loopBody n = DriverEvent.sleep 30 := by simp [loopBody, h]
      rw [List.map_cons, List.map_nil, hb]
      have : [DriverEvent.sleep 30].count DriverEvent.cycle = 0 := rfl
      rw [this]
      omega

/-- Interrupted at an even action count `2 N`, the completed loop actions
are exactly `N` blocks of one report cycle followed by one 30-second
sleep. -/
theorem loopBody_pattern (N : Nat) :
    (List.range (2 * N)).map loopBody =
      List.flatten (List.replicate N [DriverEvent.cycle, DriverEvent.sleep 30]) := by
  induction N with
  | zero => rfl
  | succ n ih =>
    have h2 : 2 * (n + 1) = (2 * n + 1) + 1 := by ring
    have e1 : loopBody (2 * n) = DriverEvent.cycle := by
      simp [loopBody, Nat.mul_mod_right]
    have e2 : loopBody (2 * n + 1) = DriverEvent.sleep 30 := by
      have : (2 * n + 1) % 2 = 1 := by omega
      simp [loopBody, this]
    rw [h2, List.range_succ, List.range_succ, List.map_append, List.map_append,
      ih, List.replicate_succ', List.flatten_append]
    simp [e1, e2]

/-- C8: in continuous mode, when the interrupt arrives after `N` completed
report cycles (i.e. after `k` atomic loop actions with `(k+1)/2 = N`), the
trace holds exactly `N` cycles, starts with the startup banner, ends with
the stop message printed by the caught interrupt (the driver terminates
normally), and at the canonical interrupt point the completed actions are
`N` repetitions of one cycle followed by one 30-second sleep. -/
theorem continuous_mode_cycles (N k : Nat) (h : (k + 1) / 2 = N) :
    cycleCount (driverContinuous k) = N ∧
    (driverContinuous k).head? = some DriverEvent.startMsg ∧
    (driverContinuous k).getLast? = some DriverEvent.stopMsg ∧
    driverContinuous (2 * N) = DriverEvent.startMsg ::
      (List.flatten (List.replicate N [DriverEvent.cycle, DriverEvent.sleep 30])
        ++ [DriverEvent.stopMsg]) := by
  refine ⟨?_, rfl, ?_, ?_⟩
  · unfold cycleCount driverContinuous
    rw [List.count_cons, List.count_append, loopBody_cycle_count, h]
    rfl
  · show (DriverEvent.startMsg ::
      ((List.range k).map loopBody ++ [DriverEvent.stopMsg])).getLast? = _
    rw [← List.cons_append, List.getLast?_concat]
  · rw [driverContinuous, loopBody_pattern]

/-- Witness for C8: interrupt during the third cycle, after four completed
actions (two full cycles). -/
theorem continuous_mode_cycles_witness :
    cycleCount (driverContinuous 4) = 2 ∧
    (driverContinuous 4).head? = some DriverEvent.startMsg ∧
    (driverContinuous 4).getLast? = some DriverEvent.stopMsg ∧
    driverContinuous (2 * 2) = DriverEvent.startMsg ::
      (List.flatten (List.replicate 2 [DriverEvent.cycle, DriverEvent.sleep 30])
        ++ [DriverEvent.stopMsg]) :=
  continuous_mode_cycles 2 4 (by decide)

set_option maxRecDepth 20000 in
/-- C9: on the literal test vector — run 42 completed with conclusion
success, 2/2 instances with an active load balancer, healthy with response
time 0.15s — the rendered report contains the five literal substrings
required by the specification. -/
theorem report_contains_literals :
    reportC9.map (fun s =>
      strContains s "Run #42: completed" && strContains s "Conclusion: success" &&
      strContains s "2/2 instances" && strContains s "active" &&
      strContains s "response: 0.15s") = Except.ok true := by
  rfl
